import Mathlib

/-!
Shallow embedding of the evaluation-orchestration core of
`deepeval-demo/deepeval_server.py`: the metric registry, metric-selector
resolution, the request-level gate, the per-metric pre-dispatch validation,
the test-case builder, the metric dispatcher and the batch loop with its
legacy single-result projection.

The external judge library (`metric.measure`) is abstracted as an oracle
(`Judge`); judge scores are modelled as exact rationals.  HTTP transport,
logging and provider construction from environment variables are out of
scope; a request-level rejection (`HTTPException(400)`) is modelled as the
`.error` branch of an `Except`.
-/

namespace DeepevalServer

/-- Judge scores, modelled as exact rationals (the source uses Python floats). -/
abbrev Score := ℚ

/-- Python `str.lower()` on the ASCII metric names used by the server. -/
def pyLower (s : String) : String := ⟨s.data.map Char.toLower⟩

/-- Python truthiness of an optional string (`None` and `""` are falsy). -/
def strTruthy : Option String → Bool
  | none => false
  | some s => !(s == "")

/-- Python truthiness of an optional list (`None` and `[]` are falsy). -/
def listTruthy {α : Type} : Option (List α) → Bool
  | none => false
  | some l => !l.isEmpty

/-- Python `s or d` for an optional string `s` and string default `d`. -/
def pyStrOr (s : Option String) (d : String) : String :=
  match s with
  | none => d
  | some v => if v == "" then d else v

/-- Python `l or d` for an optional list `l` and list default `d`. -/
def pyListOr {α : Type} (l : Option (List α)) (d : List α) : List α :=
  match l with
  | none => d
  | some v => if v.isEmpty then d else v

/-- One element of `EvalRequest.messages`: a JSON object that may or may not
carry `role` / `content` keys (accessed with `msg.get` in the source). -/
structure Message where
  role : Option String
  content : Option String
deriving Repr, DecidableEq

/-- One turn of a deepeval `ConversationalTestCase`. -/
structure Turn where
  role : String
  content : String
deriving Repr, DecidableEq

/-- A deepeval test case: either an `LLMTestCase` (single turn; the builder
always leaves `context = None` and puts the request context into
`retrieval_context`, which is always a list) or a `ConversationalTestCase`. -/
inductive TestCase where
  | llm (input : String) (actual_output : Option String)
      (retrieval_context : List String) (expected_output : Option String)
      (context : Option (List String))
  | conversational (turns : List Turn)
deriving Repr, DecidableEq

/-- The `metric` field of a request: a JSON string or an array of strings. -/
inductive MetricSelector where
  | single (s : String)
  | many (l : List String)
deriving Repr, DecidableEq

/-- The body of `POST /eval` (`EvalRequest` in the source; the unused
`provider` field is omitted).  `metric = none` stands for an absent field:
pydantic defaults it to `"faithfulness"`, which coincides with the handler's
`req.metric or "faithfulness"`. -/
structure EvalRequest where
  query : Option String
  context : Option (List String)
  output : Option String
  metric : Option MetricSelector
  expected_output : Option String
  messages : Option (List Message)
deriving Repr, DecidableEq

/-- Keys of `MetricEvaluator.SUPPORTED_METRICS`, in insertion order. -/
def SUPPORTED_METRICS : List String :=
  ["faithfulness", "answer_relevancy", "contextual_precision",
   "contextual_recall", "conversation_completeness", "hallucination",
   "pii_leakage"]

/-- `MetricEvaluator.validate_metric`: case-insensitive registry lookup. -/
def validate_metric (metric_name : String) : Bool :=
  SUPPORTED_METRICS.contains (pyLower metric_name)

/-- `MetricEvaluator.create_test_case`.  The source branches on
`messages is not None` (not on non-emptiness); turns default `role` to
`"user"` and `content` to `""` via `msg.get`.  The single-turn branch uses
`query or ""` and `context or []` and passes `expected_output` through. -/
def create_test_case (query : Option String) (context : Option (List String))
    (output : Option String) (expected_output : Option String)
    (messages : Option (List Message)) : TestCase :=
  match messages with
  | some msgs =>
      .conversational (msgs.map (fun m => ⟨m.role.getD "user", m.content.getD ""⟩))
  | none =>
      .llm (pyStrOr query "") output (pyListOr context []) expected_output none

/-- Outcome of one external `metric.measure(case)` call, together with the
`metric.reason` the judge library leaves behind.  `fail` stands for any
exception the judge library raises during scoring. -/
inductive JudgeOutcome where
  | ok (score : Score) (reason : Option String)
  | fail (msg : String)
deriving Repr, DecidableEq

/-- The external judge library, abstracted: lowercased metric name and test
case in, score/reason or an exception out. -/
abbrev Judge := String → TestCase → JudgeOutcome

/-- Python `metric.reason or default`. -/
def reasonOr (r : Option String) (d : String) : String :=
  match r with
  | none => d
  | some s => if s == "" then d else s

/-- The hard-coded fallback explanation each `evaluate_*` helper uses when the
judge leaves no reason. -/
def defaultReason (m : String) : String :=
  if m == "faithfulness" then "Faithfulness (DeepEval core)."
  else if m == "answer_relevancy" then "Answer Relevancy (DeepEval core)."
  else if m == "contextual_precision" then "Contextual Precision (DeepEval core)."
  else if m == "contextual_recall" then "Contextual Recall (DeepEval core)."
  else if m == "conversation_completeness" then "Conversation Completeness (DeepEval core)."
  else if m == "hallucination" then "Hallucination (DeepEval core; lower is better, 0 = none)."
  else "PII leakage score (lower is better: 0.0 = no PII detected, 1.0 = PII found)."

/-- Python `repr` of `list(SUPPORTED_METRICS.keys())`, as interpolated into
the unsupported-metric message. -/
def supportedRepr : String :=
  "[\x27faithfulness\x27, \x27answer_relevancy\x27, \x27contextual_precision\x27, \x27contextual_recall\x27, \x27conversation_completeness\x27, \x27hallucination\x27, \x27pii_leakage\x27]"

/-- The validation prefix of `MetricEvaluator.evaluate` (source lines
586-609), applied to the already-lowercased metric name `m` and the original
request fields: `some msg` is the `ValueError` message raised before the test
case is built, `none` means validation passes. -/
def preValidate (m : String) (query : Option String)
    (context : Option (List String)) (expected_output : Option String)
    (messages : Option (List Message)) : Option String :=
  if !(validate_metric m) then
    some ("Unsupported metric: " ++ m ++ ". Supported: " ++ supportedRepr)
  else if (m == "contextual_precision" || m == "contextual_recall")
      && !(strTruthy expected_output) then
    some (m ++ " requires \x27expected_output\x27 field")
  else if (m == "contextual_precision" || m == "contextual_recall")
      && !(listTruthy context) then
    some (m ++ " requires \x27context\x27 field (list of retrieved passages)")
  else if m == "answer_relevancy" && !(strTruthy query) then
    some "answer_relevancy requires \x27query\x27 field (the user\x27s question)"
  else if m == "conversation_completeness" && !(listTruthy messages) then
    some "conversation_completeness requires \x27messages\x27 field (list of conversation turns with role and content)"
  else if m == "hallucination" && !(listTruthy context) then
    some "hallucination requires \x27context\x27 field (list of source passages to check against)"
  else
    none

/-- A per-metric failure inside the batch loop: `validation` is a Python
`ValueError` (caught separately), `execution` any other exception. -/
inductive MetricFailure where
  | validation (msg : String)
  | execution (msg : String)
deriving Repr, DecidableEq

/-- The hallucination compatibility shim (source lines 497-501): if the
case's `context` is `None` and `retrieval_context` is not `None`, copy the
latter into the former.  For cases built by `create_test_case` the llm
branch always has a (list-valued) `retrieval_context`, and conversational
cases have neither attribute, so only the llm-with-`none`-context shape is
rewritten. -/
def hallucinationBackfill : TestCase → TestCase
  | .llm i a rc eo none => .llm i a rc eo (some rc)
  | c => c

/-- The test case actually handed to the judge for (lowercased) metric `m`:
identical to the built case except for the hallucination backfill. -/
def dispatchCase (m : String) (c : TestCase) : TestCase :=
  if m == "hallucination" then hallucinationBackfill c else c

/-- `MetricEvaluator.evaluate`: lowercase the metric name, validate the
original request fields, build the test case, dispatch to the judge, and for
`pii_leakage` invert the judge's compliance score (`score = 1.0 - raw_score`,
source line 541).  All other metrics report the judge's score unchanged. -/
def evaluate (judge : Judge) (metric_name : String) (query : Option String)
    (context : Option (List String)) (output : Option String)
    (expected_output : Option String) (messages : Option (List Message)) :
    Except MetricFailure (Score × String) :=
  match preValidate (pyLower metric_name) query context expected_output messages with
  | some msg => .error (.validation msg)
  | none =>
      match judge (pyLower metric_name)
          (dispatchCase (pyLower metric_name)
            (create_test_case query context output expected_output messages)) with
      | .ok raw r =>
          if pyLower metric_name == "pii_leakage" then
            .ok (1 - raw, reasonOr r (defaultReason (pyLower metric_name)))
          else
            .ok (raw, reasonOr r (defaultReason (pyLower metric_name)))
      | .fail msg => .error (.execution msg)

/-- One element of the response's `results` array. -/
structure MetricResult where
  metric_name : String
  score : Option Score
  explanation : Option String
  error : Option String
deriving Repr, DecidableEq

/-- One iteration of the batch loop (source lines 785-821): success appends
score and explanation, a `ValueError` appends its message as `error`, any
other exception appends `"Evaluation failed: "` plus the message. -/
def runMetric (judge : Judge) (req : EvalRequest) (m : String) : MetricResult :=
  match evaluate judge m req.query req.context req.output req.expected_output req.messages with
  | .ok (s, expl) => ⟨m, some s, some expl, none⟩
  | .error (.validation msg) => ⟨m, none, none, some msg⟩
  | .error (.execution msg) => ⟨m, none, none, some ("Evaluation failed: " ++ msg)⟩

/-- `EvalResponse`: the per-metric results plus the legacy flat fields. -/
structure EvalResponse where
  results : List MetricResult
  metric_name : Option String
  score : Option Score
  explanation : Option String
  error : Option String
deriving Repr, DecidableEq

/-- The backward-compatibility projection (source lines 823-834): copy the
flat fields from the first result whose `score` is not `None`; leave them
`None` when no metric succeeded. -/
def legacyProject (results : List MetricResult) : EvalResponse :=
  match results.find? (fun r => r.score.isSome) with
  | some r => ⟨results, some r.metric_name, r.score, r.explanation, r.error⟩
  | none => ⟨results, none, none, none, none⟩

/-- `req.metric or "faithfulness"` (source line 739): `None`, `""` and `[]`
are all falsy and fall back to the default metric. -/
def metricParam (req : EvalRequest) : MetricSelector :=
  match req.metric with
  | none => .single "faithfulness"
  | some (.single s) => if s == "" then .single "faithfulness" else .single s
  | some (.many l) => if l.isEmpty then .single "faithfulness" else .many l

/-- Selector resolution (source lines 742-751): a string equal to `"all"`
case-insensitively expands to the registry keys, dropping
`conversation_completeness` when `req.messages` is falsy; any other string is
a singleton; an array is used as-is. -/
def resolveMetrics (req : EvalRequest) : List String :=
  match metricParam req with
  | .single s =>
      if pyLower s == "all" then
        if listTruthy req.messages then SUPPORTED_METRICS
        else SUPPORTED_METRICS.erase "conversation_completeness"
      else [s]
  | .many l => l

/-- Whether resolved metric `m` trips the request-level gate (source lines
754-769): `conversation_completeness` needs truthy `messages`, every other
metric needs truthy `output`. -/
def gateViolation (req : EvalRequest) (m : String) : Bool :=
  if pyLower m == "conversation_completeness" then !(listTruthy req.messages)
  else !(strTruthy req.output)

/-- The `HTTPException(400)` detail raised when metric `m` trips the gate. -/
def gateDetail (m : String) : String :=
  if pyLower m == "conversation_completeness" then
    "messages field is required for conversation_completeness metric"
  else
    "output field is required for " ++ pyLower m ++ " metric"

/-- The gate as a whole: the detail of the first violating metric, if any. -/
def gateError (req : EvalRequest) (metrics : List String) : Option String :=
  ((metrics.find? (gateViolation req)).map gateDetail)

/-- The `POST /eval` handler `evaluate_llm_response`, given an already
constructed judge backend: resolve the selector, run the gate (a violation
rejects the whole request with a 400 detail, modelled as `.error`), run each
metric in order, and attach the legacy projection. -/
def evaluate_llm_response (judge : Judge) (req : EvalRequest) :
    Except String EvalResponse :=
  match gateError req (resolveMetrics req) with
  | some detail => .error detail
  | none => .ok (legacyProject ((resolveMetrics req).map (runMetric judge req)))

/-- Number of `create_test_case` invocations one `evaluate` call performs:
`0` when validation raises before the case is built, else `1`. -/
def evaluateCaseBuilds (metric_name : String) (query : Option String)
    (context : Option (List String)) (expected_output : Option String)
    (messages : Option (List Message)) : Nat :=
  match preValidate (pyLower metric_name) query context expected_output messages with
  | some _ => 0
  | none => 1

/-- Total number of `create_test_case` invocations the batch loop performs
for a request that passes the gate. -/
def batchCaseBuilds (req : EvalRequest) : Nat :=
  ((resolveMetrics req).map
    (fun m => evaluateCaseBuilds m req.query req.context req.expected_output req.messages)).sum

/-- Method names bound in the class body of `GroqModel` (source lines 82-93),
in order: only `__init__` is defined there. -/
def groqModelClassBody : List (String × String) :=
  [("__init__", "groq_init")]

/-- Method names bound in the class body of `AzureOpenAIModel` (source lines
96-241), in order, each tagged with which implementation the body holds.  The
class body defines `load_model` and `generate` twice; the second `generate`
is the Groq-flavoured one (docstring "Generate completion using Groq API",
request addressed by `model=self.model_name`). -/
def azureOpenAIModelClassBody : List (String × String) :=
  [("__init__", "azure_init"), ("load_model", "return_client"),
   ("generate", "azure_generate"), ("load_model", "return_client"),
   ("generate", "groq_generate"), ("a_generate", "delegate_to_generate"),
   ("get_model_name", "return_model_name"),
   ("should_use_azure_openai", "return_false")]

/-- Modelled from the spec: the standard OpenAI variant is deepeval's
external `GPTModel` class, which is not part of src/; per spec section 4.1
every variant exposes `generate` and a model-identifier accessor. -/
def gptModelClassBody : List (String × String) :=
  [("__init__", "gpt_init"), ("load_model", "return_client"),
   ("generate", "gpt_generate"), ("a_generate", "delegate_to_generate"),
   ("get_model_name", "return_model_name")]

/-- In a Python class body the last binding of a name wins. -/
def effectiveImpl (body : List (String × String)) (m : String) : Option String :=
  (body.reverse.find? (fun p => p.1 == m)).map Prod.snd

/-- The capability surface the judge library consumes from an adapter:
a `generate` operation and the `get_model_name` identifier accessor. -/
def exposesJudgeSurface (body : List (String × String)) : Bool :=
  (effectiveImpl body "generate").isSome && (effectiveImpl body "get_model_name").isSome

/-- A judge backend that scores every metric 1/2. -/
def cJudgeHalf : Judge := fun _ _ => .ok (1/2) (some "fine")

/-- A judge backend whose every call raises. -/
def cJudgeFail : Judge := fun _ _ => .fail "boom"

/-- A judge backend that only accepts conversational cases. -/
def convJudge : Judge := fun _ c =>
  match c with
  | .conversational _ => .ok 1 (some "conversation scored")
  | .llm _ _ _ _ _ => .fail "expected a conversational case"

/-- A judge backend returning a raw compliance score of 9/10. -/
def piiJudge : Judge := fun _ _ => .ok (9/10) none

/-- Output field used in the pii-leakage witness. -/
def c2Output : Option String := some "Contact John Doe at 555-123-4567"

/-- Request with one metric that fails validation and one that succeeds. -/
def c1Req : EvalRequest :=
  ⟨none, some ["ctx"], some "out", some (.many ["answer_relevancy", "faithfulness"]), none, none⟩

/-- Request whose selector is the uppercase string `"ALL"`. -/
def c3Request : EvalRequest :=
  ⟨some "q", none, some "out", some (.single "ALL"), none, none⟩

/-- Request with a mixed-case single-metric selector. -/
def c3SingleReq : EvalRequest :=
  ⟨none, none, some "out", some (.single "Faithfulness"), none, none⟩

/-- Request with a two-element list selector. -/
def c3ManyReq : EvalRequest :=
  ⟨none, some ["ctx"], some "out", some (.many ["hallucination", "faithfulness"]), none, none⟩

/-- Request whose selector is the empty string. -/
def c3EmptyStrReq : EvalRequest :=
  ⟨none, none, some "out", some (.single ""), none, none⟩

/-- Request whose selector is the empty sequence. -/
def c3EmptyListReq : EvalRequest :=
  ⟨none, none, some "out", some (.many []), none, none⟩

/-- Request with no selector at all. -/
def c3NoneReq : EvalRequest :=
  ⟨none, none, some "out", none, none, none⟩

/-- Request with no `output`, so the gate rejects it for `faithfulness`. -/
def c5BadReq : EvalRequest :=
  ⟨none, none, none, some (.single "faithfulness"), none, none⟩

/-- Request where `contextual_precision` lacks `expected_output` but
`faithfulness` can run. -/
def c6Req : EvalRequest :=
  ⟨some "q", none, some "out", some (.many ["contextual_precision", "faithfulness"]), none, none⟩

/-- Request resolving two metrics that both pass pre-dispatch validation. -/
def c9Request : EvalRequest :=
  ⟨some "q", some ["ctx"], some "out", some (.many ["faithfulness", "pii_leakage"]), none, none⟩

/-- The spec's conversation example: second element has no `role` key. -/
def exampleMsgs : List Message := [⟨some "user", some "hi"⟩, ⟨none, some "there"⟩]

/-- A request that asks for `pii_leakage` twice, with the other fields free. -/
def c2Req (query : Option String) (context : Option (List String))
    (output expected_output : Option String) (messages : Option (List Message)) :
    EvalRequest :=
  ⟨query, context, output, some (.many ["pii_leakage", "pii_leakage"]), expected_output, messages⟩

@[simp] lemma pyLower_faithfulness : pyLower "faithfulness" = "faithfulness" := rfl

@[simp] lemma pyLower_answer_relevancy : pyLower "answer_relevancy" = "answer_relevancy" := rfl

@[simp] lemma pyLower_contextual_precision : pyLower "contextual_precision" = "contextual_precision" := rfl

@[simp] lemma pyLower_contextual_recall : pyLower "contextual_recall" = "contextual_recall" := rfl

@[simp] lemma pyLower_conversation_completeness : pyLower "conversation_completeness" = "conversation_completeness" := rfl

@[simp] lemma pyLower_hallucination : pyLower "hallucination" = "hallucination" := rfl

@[simp] lemma pyLower_pii_leakage : pyLower "pii_leakage" = "pii_leakage" := rfl

lemma preValidate_cp_noExpected (q : Option String) (c : Option (List String))
    (eo : Option String) (ms : Option (List Message)) (h : strTruthy eo = false) :
    preValidate "contextual_precision" q c eo ms
      = some "contextual_precision requires \x27expected_output\x27 field" := by
  have hv : validate_metric "contextual_precision" = true := by decide
  simp [preValidate, hv, h]

lemma preValidate_cp_noContext (q : Option String) (c : Option (List String))
    (eo : Option String) (ms : Option (List Message))
    (he : strTruthy eo = true) (hc : listTruthy c = false) :
    preValidate "contextual_precision" q c eo ms
      = some "contextual_precision requires \x27context\x27 field (list of retrieved passages)" := by
  have hv : validate_metric "contextual_precision" = true := by decide
  simp [preValidate, hv, he, hc]

lemma preValidate_cr_noExpected (q : Option String) (c : Option (List String))
    (eo : Option String) (ms : Option (List Message)) (h : strTruthy eo = false) :
    preValidate "contextual_recall" q c eo ms
      = some "contextual_recall requires \x27expected_output\x27 field" := by
  have hv : validate_metric "contextual_recall" = true := by decide
  simp [preValidate, hv, h]

lemma preValidate_cr_noContext (q : Option String) (c : Option (List String))
    (eo : Option String) (ms : Option (List Message))
    (he : strTruthy eo = true) (hc : listTruthy c = false) :
    preValidate "contextual_recall" q c eo ms
      = some "contextual_recall requires \x27context\x27 field (list of retrieved passages)" := by
  have hv : validate_metric "contextual_recall" = true := by decide
  simp [preValidate, hv, he, hc]

lemma preValidate_ar_noQuery (q : Option String) (c : Option (List String))
    (eo : Option String) (ms : Option (List Message)) (h : strTruthy q = false) :
    preValidate "answer_relevancy" q c eo ms
      = some "answer_relevancy requires \x27query\x27 field (the user\x27s question)" := by
  have hv : validate_metric "answer_relevancy" = true := by decide
  simp [preValidate, hv, h]

lemma preValidate_cc_noMessages (q : Option String) (c : Option (List String))
    (eo : Option String) (ms : Option (List Message)) (h : listTruthy ms = false) :
    preValidate "conversation_completeness" q c eo ms
      = some "conversation_completeness requires \x27messages\x27 field (list of conversation turns with role and content)" := by
  have hv : validate_metric "conversation_completeness" = true := by decide
  simp [preValidate, hv, h]

lemma preValidate_hal_noContext (q : Option String) (c : Option (List String))
    (eo : Option String) (ms : Option (List Message)) (h : listTruthy c = false) :
    preValidate "hallucination" q c eo ms
      = some "hallucination requires \x27context\x27 field (list of source passages to check against)" := by
  have hv : validate_metric "hallucination" = true := by decide
  simp [preValidate, hv, h]

lemma preValidate_faithfulness (q : Option String) (c : Option (List String))
    (eo : Option String) (ms : Option (List Message)) :
    preValidate "faithfulness" q c eo ms = none := by
  have hv : validate_metric "faithfulness" = true := by decide
  simp [preValidate, hv]

lemma preValidate_pii (q : Option String) (c : Option (List String))
    (eo : Option String) (ms : Option (List Message)) :
    preValidate "pii_leakage" q c eo ms = none := by
  have hv : validate_metric "pii_leakage" = true := by decide
  simp [preValidate, hv]

lemma evaluate_validation (judge : Judge) (m : String) (q : Option String)
    (c : Option (List String)) (o eo : Option String) (ms : Option (List Message))
    (msg : String) (h : preValidate (pyLower m) q c eo ms = some msg) :
    evaluate judge m q c o eo ms = .error (.validation msg) := by
  unfold evaluate
  rw [h]

lemma evaluate_fail (judge : Judge) (m : String) (q : Option String)
    (c : Option (List String)) (o eo : Option String) (ms : Option (List Message))
    (msg : String) (hpv : preValidate (pyLower m) q c eo ms = none)
    (hj : judge (pyLower m) (dispatchCase (pyLower m) (create_test_case q c o eo ms)) = .fail msg) :
    evaluate judge m q c o eo ms = .error (.execution msg) := by
  unfold evaluate
  rw [hpv, hj]

lemma evaluate_ok_nonpii (judge : Judge) (m : String) (q : Option String)
    (c : Option (List String)) (o eo : Option String) (ms : Option (List Message))
    (raw : Score) (r : Option String)
    (hpv : preValidate (pyLower m) q c eo ms = none)
    (hm : (pyLower m == "pii_leakage") = false)
    (hj : judge (pyLower m) (dispatchCase (pyLower m) (create_test_case q c o eo ms)) = .ok raw r) :
    evaluate judge m q c o eo ms = .ok (raw, reasonOr r (defaultReason (pyLower m))) := by
  unfold evaluate
  rw [hpv, hj, hm]
  rfl

lemma evaluate_ok_pii (judge : Judge) (q : Option String)
    (c : Option (List String)) (o eo : Option String) (ms : Option (List Message))
    (raw : Score) (r : Option String)
    (hj : judge "pii_leakage" (create_test_case q c o eo ms) = .ok raw r) :
    evaluate judge "pii_leakage" q c o eo ms
      = .ok (1 - raw, reasonOr r (defaultReason "pii_leakage")) := by
  unfold evaluate
  rw [pyLower_pii_leakage, preValidate_pii]
  have hc : dispatchCase "pii_leakage" (create_test_case q c o eo ms)
      = create_test_case q c o eo ms := by
    unfold dispatchCase
    simp
  rw [hc, hj]
  rfl

lemma runMetric_ok (judge : Judge) (req : EvalRequest) (m : String) (s : Score) (e : String)
    (h : evaluate judge m req.query req.context req.output req.expected_output req.messages
      = .ok (s, e)) :
    runMetric judge req m = ⟨m, some s, some e, none⟩ := by
  unfold runMetric
  rw [h]

lemma runMetric_validation (judge : Judge) (req : EvalRequest) (m : String) (msg : String)
    (h : evaluate judge m req.query req.context req.output req.expected_output req.messages
      = .error (.validation msg)) :
    runMetric judge req m = ⟨m, none, none, some msg⟩ := by
  unfold runMetric
  rw [h]

lemma runMetric_execution (judge : Judge) (req : EvalRequest) (m : String) (msg : String)
    (h : evaluate judge m req.query req.context req.output req.expected_output req.messages
      = .error (.execution msg)) :
    runMetric judge req m = ⟨m, none, none, some ("Evaluation failed: " ++ msg)⟩ := by
  unfold runMetric
  rw [h]

lemma runMetric_shape (judge : Judge) (req : EvalRequest) (m : String) :
    (runMetric judge req m).metric_name = m ∧
    (((runMetric judge req m).score.isSome = true ∧
      (runMetric judge req m).explanation.isSome = true ∧
      (runMetric judge req m).error = none) ∨
     ((runMetric judge req m).score = none ∧
      (runMetric judge req m).explanation = none ∧
      (runMetric judge req m).error.isSome = true)) := by
  cases h : evaluate judge m req.query req.context req.output req.expected_output req.messages with
  | ok p =>
    obtain ⟨s, e⟩ := p
    rw [runMetric_ok judge req m s e h]
    exact ⟨rfl, Or.inl ⟨rfl, rfl, rfl⟩⟩
  | error f =>
    cases f with
    | validation msg =>
      rw [runMetric_validation judge req m msg h]
      exact ⟨rfl, Or.inr ⟨rfl, rfl, rfl⟩⟩
    | execution msg =>
      rw [runMetric_execution judge req m msg h]
      exact ⟨rfl, Or.inr ⟨rfl, rfl, rfl⟩⟩

lemma evaluate_llm_response_ok (judge : Judge) (req : EvalRequest)
    (h : gateError req (resolveMetrics req) = none) :
    evaluate_llm_response judge req
      = .ok (legacyProject ((resolveMetrics req).map (runMetric judge req))) := by
  unfold evaluate_llm_response
  rw [h]

lemma evaluate_llm_response_err (judge : Judge) (req : EvalRequest) (d : String)
    (h : gateError req (resolveMetrics req) = some d) :
    evaluate_llm_response judge req = .error d := by
  unfold evaluate_llm_response
  rw [h]

lemma legacyProject_results (results : List MetricResult) :
    (legacyProject results).results = results := by
  unfold legacyProject
  rcases h : results.find? (fun r => r.score.isSome) with _ | r
  · rw [h]
  · rw [h]

lemma find?_eq_of_first {α : Type} (p : α → Bool) (l : List α) (i : Nat)
    (hi : i < l.length) (hp : p l[i] = true)
    (hb : ∀ j (hj : j < l.length), j < i → p l[j] = false) :
    l.find? p = some l[i] := by
  induction l generalizing i with
  | nil => simp at hi
  | cons a t ih =>
    cases i with
    | zero =>
      simp only [List.getElem_cons_zero] at hp
      simp [List.find?_cons_of_pos, hp]
    | succ n =>
      have ha : p a = false := by
        have := hb 0 (by simp) (Nat.succ_pos n)
        simpa using this
      rw [List.find?_cons_of_neg _ (by simp [ha])]
      have hn : n < t.length := by
        simpa [Nat.succ_lt_succ_iff] using hi
      have := ih n hn (by simpa using hp) ?_
      · simpa using this
      · intro j hj hlt
        have := hb (j + 1) (by simpa [Nat.succ_lt_succ_iff] using hj) (Nat.succ_lt_succ hlt)
        simpa using this

lemma legacyProject_first (results : List MetricResult) (i : Nat)
    (hi : i < results.length) (hp : results[i].score.isSome = true)
    (hb : ∀ j (hj : j < results.length), j < i → results[j].score = none) :
    legacyProject results
      = ⟨results, some results[i].metric_name, results[i].score,
          results[i].explanation, results[i].error⟩ := by
  unfold legacyProject
  rw [find?_eq_of_first (fun r => r.score.isSome) results i hi hp
    (by intro j hj hlt; simp [hb j hj hlt])]

lemma legacyProject_none (results : List MetricResult)
    (h : ∀ r ∈ results, r.score = none) :
    legacyProject results = ⟨results, none, none, none, none⟩ := by
  unfold legacyProject
  rw [List.find?_eq_none.mpr ?_]
  intro x hx
  simp [h x hx]

lemma buildsSum (q : Option String) (c : Option (List String)) (eo : Option String)
    (ms : Option (List Message)) (l : List String) :
    (l.map (fun m => evaluateCaseBuilds m q c eo ms)).sum
      = (l.filter (fun m => (preValidate (pyLower m) q c eo ms).isNone)).length := by
  induction l with
  | nil => rfl
  | cons a t ih =>
    rw [List.map_cons, List.sum_cons]
    rcases h : preValidate (pyLower a) q c eo ms with _ | msg
    · have h1 : evaluateCaseBuilds a q c eo ms = 1 := by
        unfold evaluateCaseBuilds
        rw [h]
      rw [h1]
      simp [List.filter_cons, h, ih]
      omega
    · have h0 : evaluateCaseBuilds a q c eo ms = 0 := by
        unfold evaluateCaseBuilds
        rw [h]
      rw [h0]
      simp [List.filter_cons, h, ih]

/-- C1: Batch isolation and result well-formedness.  When the request passes
the gate, the batch loop yields exactly one `MetricResult` per resolved
metric, in selector-resolution order (`results` is the image of the resolved
metric list under the per-metric step); a per-metric validation or execution
failure produces a result with `error` set and `score`/`explanation` null and
the remaining metrics still run; a success produces `score`/`explanation` set
and `error` null; afterwards every result has exactly one of `score`/`error`. -/
theorem c1_batch_isolation (judge : Judge) (req : EvalRequest)
    (hgate : gateError req (resolveMetrics req) = none) :
    ∃ resp, evaluate_llm_response judge req = .ok resp ∧
      resp.results = (resolveMetrics req).map (runMetric judge req) ∧
      (∀ m (s : Score) (e : String),
        evaluate judge m req.query req.context req.output req.expected_output req.messages
          = .ok (s, e) →
        runMetric judge req m = ⟨m, some s, some e, none⟩) ∧
      (∀ m msg,
        evaluate judge m req.query req.context req.output req.expected_output req.messages
          = .error (.validation msg) →
        runMetric judge req m = ⟨m, none, none, some msg⟩) ∧
      (∀ m msg,
        evaluate judge m req.query req.context req.output req.expected_output req.messages
          = .error (.execution msg) →
        runMetric judge req m = ⟨m, none, none, some ("Evaluation failed: " ++ msg)⟩) ∧
      (∀ r ∈ resp.results,
        (r.score.isSome = true ∧ r.explanation.isSome = true ∧ r.error = none) ∨
        (r.score = none ∧ r.explanation = none ∧ r.error.isSome = true)) := by
  refine ⟨_, evaluate_llm_response_ok judge req hgate, legacyProject_results _, ?_, ?_, ?_, ?_⟩
  · intro m s e h
    exact runMetric_ok judge req m s e h
  · intro m msg h
    exact runMetric_validation judge req m msg h
  · intro m msg h
    exact runMetric_execution judge req m msg h
  · intro r hr
    rw [legacyProject_results] at hr
    obtain ⟨m, _, rfl⟩ := List.mem_map.mp hr
    exact (runMetric_shape judge req m).2

theorem c1_batch_isolation_witness :
    ∃ resp, evaluate_llm_response cJudgeHalf c1Req = .ok resp ∧
      resp.results = (resolveMetrics c1Req).map (runMetric cJudgeHalf c1Req) ∧
      (∀ m (s : Score) (e : String),
        evaluate cJudgeHalf m c1Req.query c1Req.context c1Req.output c1Req.expected_output c1Req.messages
          = .ok (s, e) →
        runMetric cJudgeHalf c1Req m = ⟨m, some s, some e, none⟩) ∧
      (∀ m msg,
        evaluate cJudgeHalf m c1Req.query c1Req.context c1Req.output c1Req.expected_output c1Req.messages
          = .error (.validation msg) →
        runMetric cJudgeHalf c1Req m = ⟨m, none, none, some msg⟩) ∧
      (∀ m msg,
        evaluate cJudgeHalf m c1Req.query c1Req.context c1Req.output c1Req.expected_output c1Req.messages
          = .error (.execution msg) →
        runMetric cJudgeHalf c1Req m = ⟨m, none, none, some ("Evaluation failed: " ++ msg)⟩) ∧
      (∀ r ∈ resp.results,
        (r.score.isSome = true ∧ r.explanation.isSome = true ∧ r.error = none) ∨
        (r.score = none ∧ r.explanation = none ∧ r.error.isSome = true)) :=
  c1_batch_isolation cJudgeHalf c1Req (by decide)

/-- C2: `pii_leakage` inversion.  Whenever the judge library returns a raw
compliance score `raw`, the dispatcher reports exactly `1 - raw`; and a batch
that dispatches `pii_leakage` twice reports `1 - raw` in both result slots
(the inversion is never applied twice to one score), with the legacy
projection copying the score unchanged. -/
theorem c2_pii_inversion (judge : Judge) (query : Option String)
    (context : Option (List String)) (output expected_output : Option String)
    (messages : Option (List Message)) (raw : Score) (r : Option String)
    (hj : judge "pii_leakage" (create_test_case query context output expected_output messages)
      = .ok raw r)
    (ho : strTruthy output = true) :
    evaluate judge "pii_leakage" query context output expected_output messages
      = .ok (1 - raw, reasonOr r (defaultReason "pii_leakage")) ∧
    (∃ resp,
      evaluate_llm_response judge (c2Req query context output expected_output messages)
        = .ok resp ∧
      resp.results.map MetricResult.score = [some (1 - raw), some (1 - raw)] ∧
      resp.score = some (1 - raw)) := by
  have heval : evaluate judge "pii_leakage" query context output expected_output messages
      = .ok (1 - raw, reasonOr r (defaultReason "pii_leakage")) :=
    evaluate_ok_pii judge query context output expected_output messages raw r hj
  refine ⟨heval, ?_⟩
  have hres : resolveMetrics (c2Req query context output expected_output messages)
      = ["pii_leakage", "pii_leakage"] := rfl
  have hgv : gateViolation (c2Req query context output expected_output messages) "pii_leakage"
      = false := by
    simp [gateViolation, c2Req, ho]
  have hgate : gateError (c2Req query context output expected_output messages)
      (resolveMetrics (c2Req query context output expected_output messages)) = none := by
    rw [hres]
    unfold gateError
    rw [List.find?_cons_of_neg _ (by simp [hgv]), List.find?_cons_of_neg _ (by simp [hgv]),
      List.find?_nil]
    rfl
  have hrm : runMetric judge (c2Req query context output expected_output messages) "pii_leakage"
      = ⟨"pii_leakage", some (1 - raw), some (reasonOr r (defaultReason "pii_leakage")), none⟩ :=
    runMetric_ok judge (c2Req query context output expected_output messages) "pii_leakage"
      (1 - raw) (reasonOr r (defaultReason "pii_leakage")) heval
  have hresp := evaluate_llm_response_ok judge (c2Req query context output expected_output messages) hgate
  rw [hres] at hresp
  rw [List.map_cons, List.map_cons, List.map_nil, hrm] at hresp
  refine ⟨_, hresp, ?_, ?_⟩
  · rw [legacyProject_results]
    rfl
  · unfold legacyProject
    rw [List.find?_cons_of_pos _ (by simp)]

theorem c2_pii_inversion_witness :
    (evaluate piiJudge "pii_leakage" none none c2Output none none
        = .ok (1 - 9/10, reasonOr none (defaultReason "pii_leakage")) ∧
      (∃ resp,
        evaluate_llm_response piiJudge (c2Req none none c2Output none none) = .ok resp ∧
        resp.results.map MetricResult.score = [some (1 - 9/10), some (1 - 9/10)] ∧
        resp.score = some (1 - 9/10))) ∧
    (1 - (9 : Score)/10 = 1/10) :=
  ⟨c2_pii_inversion piiJudge none none c2Output none none (9/10) none rfl (by decide),
   by norm_num⟩

/-- C3 counterexample: three concrete selector inputs on which the claim, as
stated, fails.  The single-string selector `"ALL"` is a string other than
`"all"`, yet it does not resolve to the one metric `["ALL"]`: the code
lowercases the selector and expands it to the whole registry (minus
`conversation_completeness`, as `messages` is absent).  The single-string
selector `""` does not resolve to `[""]` and the sequence selector `[]` is
not used as-is: `req.metric or "faithfulness"` treats both as falsy, so each
resolves to the default `["faithfulness"]`. -/
theorem c3_counterexample :
    resolveMetrics c3Request ≠ ["ALL"] ∧
    resolveMetrics c3Request
      = ["faithfulness", "answer_relevancy", "contextual_precision",
         "contextual_recall", "hallucination", "pii_leakage"] ∧
    resolveMetrics c3EmptyStrReq ≠ [""] ∧
    resolveMetrics c3EmptyStrReq = ["faithfulness"] ∧
    resolveMetrics c3EmptyListReq ≠ [] ∧
    resolveMetrics c3EmptyListReq = ["faithfulness"] := by
  decide

/-- C3 (amended): a non-empty single string whose lowercasing is not `"all"`
resolves to exactly that one metric; a single string lowercasing to `"all"`
resolves to the full registry, minus `conversation_completeness` exactly when
`messages` is absent or empty; a non-empty sequence selector is used as-is,
order preserved; an empty-string selector, an empty-sequence selector and an
absent selector all resolve to the default `["faithfulness"]`. -/
theorem c3_amended (req : EvalRequest) :
    (∀ s, req.metric = some (.single s) → s ≠ "" → pyLower s ≠ "all" →
      resolveMetrics req = [s]) ∧
    (∀ s, req.metric = some (.single s) → pyLower s = "all" →
      resolveMetrics req =
        (if listTruthy req.messages then SUPPORTED_METRICS
         else SUPPORTED_METRICS.erase "conversation_completeness")) ∧
    (∀ l, req.metric = some (.many l) → l ≠ [] → resolveMetrics req = l) ∧
    (req.metric = some (.single "") → resolveMetrics req = ["faithfulness"]) ∧
    (req.metric = some (.many []) → resolveMetrics req = ["faithfulness"]) ∧
    (req.metric = none → resolveMetrics req = ["faithfulness"]) := by
  refine ⟨?_, ?_, ?_, ?_, ?_, ?_⟩
  · intro s hm hs hall
    simp [resolveMetrics, metricParam, hm, hs, hall]
  · intro s hm hall
    have hs : s ≠ "" := by
      intro h
      rw [h] at hall
      exact absurd hall (by decide)
    simp [resolveMetrics, metricParam, hm, hs, hall]
  · intro l hm hl
    cases l with
    | nil => exact absurd rfl hl
    | cons a t => simp [resolveMetrics, metricParam, hm]
  · intro hm
    simp [resolveMetrics, metricParam, hm]
  · intro hm
    simp [resolveMetrics, metricParam, hm]
  · intro hm
    simp [resolveMetrics, metricParam, hm]

theorem c3_amended_witness :
    resolveMetrics c3SingleReq = ["Faithfulness"] ∧
    resolveMetrics c3Request
      = (if listTruthy c3Request.messages then SUPPORTED_METRICS
         else SUPPORTED_METRICS.erase "conversation_completeness") ∧
    resolveMetrics c3ManyReq = ["hallucination", "faithfulness"] ∧
    resolveMetrics c3EmptyStrReq = ["faithfulness"] ∧
    resolveMetrics c3EmptyListReq = ["faithfulness"] ∧
    resolveMetrics c3NoneReq = ["faithfulness"] :=
  ⟨(c3_amended c3SingleReq).1 "Faithfulness" rfl (by decide) (by decide),
   (c3_amended c3Request).2.1 "ALL" rfl (by decide),
   (c3_amended c3ManyReq).2.2.1 ["hallucination", "faithfulness"] rfl (by decide),
   (c3_amended c3EmptyStrReq).2.2.2.1 rfl,
   (c3_amended c3EmptyListReq).2.2.2.2.1 rfl,
   (c3_amended c3NoneReq).2.2.2.2.2 rfl⟩

/-- C4: Legacy projection.  When the gate passes, the request completes as a
transport-level success and the response equals the legacy projection of its
own results list; that projection copies `metric_name`, `score`,
`explanation`, `error` from the first result (in resolution order) whose
`score` is non-null, and leaves all four fields null when no metric
succeeded. -/
theorem c4_legacy_projection (judge : Judge) (req : EvalRequest)
    (hgate : gateError req (resolveMetrics req) = none) :
    ∃ resp, evaluate_llm_response judge req = .ok resp ∧
      resp = legacyProject resp.results ∧
      (∀ (results : List MetricResult) (i : Nat) (hi : i < results.length),
        results[i].score.isSome = true →
        (∀ j (hj : j < results.length), j < i → results[j].score = none) →
        legacyProject results
          = ⟨results, some results[i].metric_name, results[i].score,
              results[i].explanation, results[i].error⟩) ∧
      (∀ results : List MetricResult, (∀ r ∈ results, r.score = none) →
        legacyProject results = ⟨results, none, none, none, none⟩) := by
  refine ⟨legacyProject ((resolveMetrics req).map (runMetric judge req)),
    evaluate_llm_response_ok judge req hgate, ?_, ?_, ?_⟩
  · rw [legacyProject_results]
  · intro results i hi hs hb
    exact legacyProject_first results i hi hs hb
  · intro results h
    exact legacyProject_none results h

theorem c4_legacy_projection_witness :
    ∃ resp, evaluate_llm_response cJudgeFail c1Req = .ok resp ∧
      resp = legacyProject resp.results ∧
      (∀ (results : List MetricResult) (i : Nat) (hi : i < results.length),
        results[i].score.isSome = true →
        (∀ j (hj : j < results.length), j < i → results[j].score = none) →
        legacyProject results
          = ⟨results, some results[i].metric_name, results[i].score,
              results[i].explanation, results[i].error⟩) ∧
      (∀ results : List MetricResult, (∀ r ∈ results, r.score = none) →
        legacyProject results = ⟨results, none, none, none, none⟩) :=
  c4_legacy_projection cJudgeFail c1Req (by decide)

/-- C5: request-level gate.  If any resolved metric lacks its request-level
prerequisite (`messages` for `conversation_completeness`, `output` for every
other metric), the whole request is rejected with a 400 detail before any
judge call (the outcome is identical for any two judge backends and carries
no `MetricResult` at all); if every resolved metric meets its prerequisite,
the request proceeds and produces one result per resolved metric. -/
theorem c5_request_gate (req : EvalRequest) :
    ((∃ m ∈ resolveMetrics req,
        (if pyLower m == "conversation_completeness" then listTruthy req.messages = false
         else strTruthy req.output = false)) →
      ∀ judge1 judge2 : Judge,
        (∃ d, evaluate_llm_response judge1 req = .error d) ∧
        evaluate_llm_response judge1 req = evaluate_llm_response judge2 req) ∧
    ((∀ m ∈ resolveMetrics req,
        (if pyLower m == "conversation_completeness" then listTruthy req.messages = true
         else strTruthy req.output = true)) →
      ∀ judge : Judge, ∃ resp, evaluate_llm_response judge req = .ok resp ∧
        resp.results.length = (resolveMetrics req).length) := by
  constructor
  · rintro ⟨m, hm, hcond⟩ judge1 judge2
    have hv : gateViolation req m = true := by
      unfold gateViolation
      split at hcond
      case isTrue h => simp [h, hcond]
      case isFalse h => simp [h, hcond]
    cases hfind : (resolveMetrics req).find? (gateViolation req) with
    | none =>
      exact absurd hv (List.find?_eq_none.mp hfind m hm)
    | some mv =>
      have hge : gateError req (resolveMetrics req) = some (gateDetail mv) := by
        unfold gateError
        rw [hfind]
        rfl
      refine ⟨⟨gateDetail mv, evaluate_llm_response_err judge1 req _ hge⟩, ?_⟩
      rw [evaluate_llm_response_err judge1 req _ hge, evaluate_llm_response_err judge2 req _ hge]
  · intro hall judge
    have hnone : gateError req (resolveMetrics req) = none := by
      unfold gateError
      rw [List.find?_eq_none.mpr ?_]
      · rfl
      · intro m hm hviol
        have hc := hall m hm
        unfold gateViolation at hviol
        split at hviol
        case isTrue h =>
          rw [if_pos h] at hc
          rw [hc] at hviol
          simp at hviol
        case isFalse h =>
          rw [if_neg h] at hc
          rw [hc] at hviol
          simp at hviol
    refine ⟨_, evaluate_llm_response_ok judge req hnone, ?_⟩
    rw [legacyProject_results, List.length_map]

theorem c5_request_gate_witness :
    ((∃ d, evaluate_llm_response cJudgeHalf c5BadReq = .error d) ∧
      evaluate_llm_response cJudgeHalf c5BadReq = evaluate_llm_response cJudgeFail c5BadReq) ∧
    (∃ resp, evaluate_llm_response cJudgeHalf c1Req = .ok resp ∧
      resp.results.length = (resolveMetrics c1Req).length) :=
  ⟨(c5_request_gate c5BadReq).1 (by decide) cJudgeHalf cJudgeFail,
   (c5_request_gate c1Req).2 (by decide) cJudgeHalf⟩

/-- C6: pre-dispatch field validation, against the original request fields:
`contextual_precision`/`contextual_recall` require truthy `expected_output`
and non-empty `context`; `answer_relevancy` requires non-empty `query`;
`conversation_completeness` requires non-empty `messages`; `hallucination`
requires non-empty `context`.  Each violation yields a `ValidationFailure`
whose exact message names the missing field, and inside a gate-passing batch
such a failure becomes that metric's `error` slot while the request still
succeeds (never a request-level rejection). -/
theorem c6_field_validation :
    (∀ (judge : Judge) (q : Option String) (c : Option (List String))
      (o eo : Option String) (ms : Option (List Message)), strTruthy eo = false →
      evaluate judge "contextual_precision" q c o eo ms
        = .error (.validation "contextual_precision requires \x27expected_output\x27 field")) ∧
    (∀ (judge : Judge) (q : Option String) (c : Option (List String))
      (o eo : Option String) (ms : Option (List Message)),
      strTruthy eo = true → listTruthy c = false →
      evaluate judge "contextual_precision" q c o eo ms
        = .error (.validation "contextual_precision requires \x27context\x27 field (list of retrieved passages)")) ∧
    (∀ (judge : Judge) (q : Option String) (c : Option (List String))
      (o eo : Option String) (ms : Option (List Message)), strTruthy eo = false →
      evaluate judge "contextual_recall" q c o eo ms
        = .error (.validation "contextual_recall requires \x27expected_output\x27 field")) ∧
    (∀ (judge : Judge) (q : Option String) (c : Option (List String))
      (o eo : Option String) (ms : Option (List Message)),
      strTruthy eo = true → listTruthy c = false →
      evaluate judge "contextual_recall" q c o eo ms
        = .error (.validation "contextual_recall requires \x27context\x27 field (list of retrieved passages)")) ∧
    (∀ (judge : Judge) (q : Option String) (c : Option (List String))
      (o eo : Option String) (ms : Option (List Message)), strTruthy q = false →
      evaluate judge "answer_relevancy" q c o eo ms
        = .error (.validation "answer_relevancy requires \x27query\x27 field (the user\x27s question)")) ∧
    (∀ (judge : Judge) (q : Option String) (c : Option (List String))
      (o eo : Option String) (ms : Option (List Message)), listTruthy ms = false →
      evaluate judge "conversation_completeness" q c o eo ms
        = .error (.validation "conversation_completeness requires \x27messages\x27 field (list of conversation turns with role and content)")) ∧
    (∀ (judge : Judge) (q : Option String) (c : Option (List String))
      (o eo : Option String) (ms : Option (List Message)), listTruthy c = false →
      evaluate judge "hallucination" q c o eo ms
        = .error (.validation "hallucination requires \x27context\x27 field (list of source passages to check against)")) ∧
    (∀ (judge : Judge) (req : EvalRequest) (m msg : String),
      gateError req (resolveMetrics req) = none → m ∈ resolveMetrics req →
      evaluate judge m req.query req.context req.output req.expected_output req.messages
        = .error (.validation msg) →
      ∃ resp, evaluate_llm_response judge req = .ok resp ∧
        (⟨m, none, none, some msg⟩ : MetricResult) ∈ resp.results) := by
  refine ⟨?_, ?_, ?_, ?_, ?_, ?_, ?_, ?_⟩
  · intro judge q c o eo ms h
    exact evaluate_validation judge "contextual_precision" q c o eo ms _
      (by rw [pyLower_contextual_precision]; exact preValidate_cp_noExpected q c eo ms h)
  · intro judge q c o eo ms he hc
    exact evaluate_validation judge "contextual_precision" q c o eo ms _
      (by rw [pyLower_contextual_precision]; exact preValidate_cp_noContext q c eo ms he hc)
  · intro judge q c o eo ms h
    exact evaluate_validation judge "contextual_recall" q c o eo ms _
      (by rw [pyLower_contextual_recall]; exact preValidate_cr_noExpected q c eo ms h)
  · intro judge q c o eo ms he hc
    exact evaluate_validation judge "contextual_recall" q c o eo ms _
      (by rw [pyLower_contextual_recall]; exact preValidate_cr_noContext q c eo ms he hc)
  · intro judge q c o eo ms h
    exact evaluate_validation judge "answer_relevancy" q c o eo ms _
      (by rw [pyLower_answer_relevancy]; exact preValidate_ar_noQuery q c eo ms h)
  · intro judge q c o eo ms h
    exact evaluate_validation judge "conversation_completeness" q c o eo ms _
      (by rw [pyLower_conversation_completeness]; exact preValidate_cc_noMessages q c eo ms h)
  · intro judge q c o eo ms h
    exact evaluate_validation judge "hallucination" q c o eo ms _
      (by rw [pyLower_hallucination]; exact preValidate_hal_noContext q c eo ms h)
  · intro judge req m msg hgate hm heval
    refine ⟨_, evaluate_llm_response_ok judge req hgate, ?_⟩
    rw [legacyProject_results]
    have hr : runMetric judge req m = ⟨m, none, none, some msg⟩ :=
      runMetric_validation judge req m msg heval
    exact hr ▸ List.mem_map_of_mem (runMetric judge req) hm

theorem c6_field_validation_witness :
    (evaluate cJudgeHalf "contextual_precision" (some "q") (some ["c"]) (some "o") none none
      = .error (.validation "contextual_precision requires \x27expected_output\x27 field")) ∧
    (evaluate cJudgeHalf "contextual_precision" (some "q") none (some "o") (some "exp") none
      = .error (.validation "contextual_precision requires \x27context\x27 field (list of retrieved passages)")) ∧
    (evaluate cJudgeHalf "contextual_recall" (some "q") (some ["c"]) (some "o") none none
      = .error (.validation "contextual_recall requires \x27expected_output\x27 field")) ∧
    (evaluate cJudgeHalf "contextual_recall" (some "q") none (some "o") (some "exp") none
      = .error (.validation "contextual_recall requires \x27context\x27 field (list of retrieved passages)")) ∧
    (evaluate cJudgeHalf "answer_relevancy" none (some ["c"]) (some "o") none none
      = .error (.validation "answer_relevancy requires \x27query\x27 field (the user\x27s question)")) ∧
    (evaluate cJudgeHalf "conversation_completeness" (some "q") none (some "o") none none
      = .error (.validation "conversation_completeness requires \x27messages\x27 field (list of conversation turns with role and content)")) ∧
    (evaluate cJudgeHalf "hallucination" (some "q") none (some "o") none none
      = .error (.validation "hallucination requires \x27context\x27 field (list of source passages to check against)")) ∧
    (∃ resp, evaluate_llm_response cJudgeHalf c6Req = .ok resp ∧
      (⟨"contextual_precision", none, none,
        some "contextual_precision requires \x27expected_output\x27 field"⟩ : MetricResult)
        ∈ resp.results) :=
  ⟨c6_field_validation.1 cJudgeHalf (some "q") (some ["c"]) (some "o") none none (by decide),
   c6_field_validation.2.1 cJudgeHalf (some "q") none (some "o") (some "exp") none (by decide) (by decide),
   c6_field_validation.2.2.1 cJudgeHalf (some "q") (some ["c"]) (some "o") none none (by decide),
   c6_field_validation.2.2.2.1 cJudgeHalf (some "q") none (some "o") (some "exp") none (by decide) (by decide),
   c6_field_validation.2.2.2.2.1 cJudgeHalf none (some ["c"]) (some "o") none none (by decide),
   c6_field_validation.2.2.2.2.2.1 cJudgeHalf (some "q") none (some "o") none none (by decide),
   c6_field_validation.2.2.2.2.2.2.1 cJudgeHalf (some "q") none (some "o") none none (by decide),
   c6_field_validation.2.2.2.2.2.2.2 cJudgeHalf c6Req "contextual_precision"
     "contextual_precision requires \x27expected_output\x27 field" (by decide) (by decide) rfl⟩

/-- C7 counterexample: with `messages = []` (provided but empty, hence not
non-empty) the claim predicts the single-turn case
`.llm "q" (some "o") ["c"] none none`; the builder instead returns a
conversational case with zero turns, because the source branches on
`messages is not None`. -/
theorem c7_counterexample :
    create_test_case (some "q") (some ["c"]) (some "o") none (some [])
      = .conversational [] ∧
    create_test_case (some "q") (some ["c"]) (some "o") none (some [])
      ≠ .llm "q" (some "o") ["c"] none none := by
  decide

/-- C7 (amended): if `messages` is provided (non-`None`, even when empty) the
builder produces a conversation case whose turns default `role` to `"user"`
and `content` to `""` when absent from the input element; if `messages` is
absent it produces a single-turn case with `input = query` (or `""` when
absent), `actual_output = output`, `retrieval_context = context` (or `[]`
when absent — a sequence, never null) and `expected_output` passed through
exactly as given, including null: a null `expected_output` is never replaced
by `output`. -/
theorem c7_case_builder (query : Option String) (context : Option (List String))
    (output expected_output : Option String) (msgs : List Message) :
    create_test_case query context output expected_output (some msgs)
      = .conversational (msgs.map (fun m => ⟨m.role.getD "user", m.content.getD ""⟩)) ∧
    create_test_case query context output expected_output none
      = .llm (query.getD "") output (context.getD []) expected_output none := by
  constructor
  · rfl
  · unfold create_test_case
    have hq : pyStrOr query "" = query.getD "" := by
      cases query with
      | none => rfl
      | some v =>
        by_cases h : v = ""
        · simp [pyStrOr, h]
        · simp [pyStrOr, h]
    have hc : pyListOr context [] = context.getD [] := by
      cases context with
      | none => rfl
      | some l =>
        cases l with
        | nil => rfl
        | cons a t => simp [pyListOr]
    rw [hq, hc]

/-- C8 (code bug): the three adapters do not expose one capability surface.
`AzureOpenAIModel`'s class body and the external `GPTModel` expose `generate`
plus the `get_model_name` identifier accessor, but `GroqModel`'s class body
defines only `__init__`: the Groq-flavoured `generate` / `get_model_name`
bodies sit inside `AzureOpenAIModel`, where the second `generate` (the Groq
one) also overrides the Azure-specific implementation. -/
theorem c8_adapter_surface :
    exposesJudgeSurface groqModelClassBody = false ∧
    exposesJudgeSurface azureOpenAIModelClassBody = true ∧
    exposesJudgeSurface gptModelClassBody = true ∧
    effectiveImpl azureOpenAIModelClassBody "generate" = some "groq_generate" ∧
    effectiveImpl groqModelClassBody "generate" = none ∧
    effectiveImpl groqModelClassBody "get_model_name" = none := by
  decide

/-- C9 counterexample: a request resolving two metrics that both pass
pre-dispatch validation builds the evaluation case twice — once per metric,
inside the dispatcher — not exactly once per batch request. -/
theorem c9_counterexample :
    batchCaseBuilds c9Request = 2 ∧ batchCaseBuilds c9Request ≠ 1 := by
  decide

/-- C9 (amended): the evaluation case is built once per metric dispatch, not
once per request: the batch performs exactly one `create_test_case` call per
resolved metric that passes pre-dispatch validation, every call reading the
same request fields, so all non-hallucination metrics dispatch the identical
case value; the hallucination backfill only fills the `context` field of
hallucination's own freshly built case, leaving every other field unchanged
and conversational cases untouched. -/
theorem c9_case_building (req : EvalRequest) :
    batchCaseBuilds req =
      ((resolveMetrics req).filter
        (fun m => (preValidate (pyLower m) req.query req.context req.expected_output req.messages).isNone)).length ∧
    (∀ m1 m2 : String, pyLower m1 ≠ "hallucination" → pyLower m2 ≠ "hallucination" →
      dispatchCase (pyLower m1)
          (create_test_case req.query req.context req.output req.expected_output req.messages)
        = dispatchCase (pyLower m2)
          (create_test_case req.query req.context req.output req.expected_output req.messages)) ∧
    (∀ (i : String) (a : Option String) (rc : List String) (eo : Option String),
      hallucinationBackfill (.llm i a rc eo none) = .llm i a rc eo (some rc)) ∧
    (∀ t, hallucinationBackfill (.conversational t) = .conversational t) := by
  refine ⟨buildsSum req.query req.context req.expected_output req.messages (resolveMetrics req),
    ?_, ?_, ?_⟩
  · intro m1 m2 h1 h2
    simp [dispatchCase, h1, h2]
  · intro i a rc eo
    rfl
  · intro t
    rfl

theorem c9_case_building_witness :
    (batchCaseBuilds c9Request =
      ((resolveMetrics c9Request).filter
        (fun m => (preValidate (pyLower m) c9Request.query c9Request.context c9Request.expected_output c9Request.messages).isNone)).length) ∧
    dispatchCase (pyLower "faithfulness")
        (create_test_case c9Request.query c9Request.context c9Request.output c9Request.expected_output c9Request.messages)
      = dispatchCase (pyLower "pii_leakage")
        (create_test_case c9Request.query c9Request.context c9Request.output c9Request.expected_output c9Request.messages) ∧
    hallucinationBackfill (.llm "q" (some "o") ["c"] none none)
      = .llm "q" (some "o") ["c"] none (some ["c"]) ∧
    hallucinationBackfill (.conversational []) = .conversational [] :=
  ⟨(c9_case_building c9Request).1,
   (c9_case_building c9Request).2.1 "faithfulness" "pii_leakage" (by decide) (by decide),
   (c9_case_building c9Request).2.2.1 "q" (some "o") ["c"] none,
   (c9_case_building c9Request).2.2.2 []⟩

/-- C10: the builder branches on `messages` being non-`None`, not non-empty:
whenever `messages` is provided — even as the empty list, and regardless of
which metric is dispatched (including the single-turn metric `faithfulness`)
— the result is a conversational case and never the single-turn case; in
particular `messages = []` yields a conversation case with zero turns, and a
`faithfulness` dispatch with `messages = some []` hands the judge that
zero-turn conversational case. -/
theorem c10_messages_non_none (query : Option String) (context : Option (List String))
    (output expected_output : Option String) (msgs : List Message) (judge : Judge) :
    create_test_case query context output expected_output (some msgs)
      = .conversational (msgs.map (fun m => ⟨m.role.getD "user", m.content.getD ""⟩)) ∧
    (∀ (i : String) (a : Option String) (rc : List String) (eo : Option String)
      (ctx : Option (List String)),
      create_test_case query context output expected_output (some msgs)
        ≠ .llm i a rc eo ctx) ∧
    create_test_case query context output expected_output (some [])
      = .conversational [] ∧
    (∀ (s : Score) (r : Option String),
      judge "faithfulness" (.conversational []) = .ok s r →
      evaluate judge "faithfulness" query context output expected_output (some [])
        = .ok (s, reasonOr r (defaultReason "faithfulness"))) := by
  refine ⟨rfl, ?_, rfl, ?_⟩
  · intro i a rc eo ctx h
    simp [create_test_case] at h
  · intro s r hj
    exact evaluate_ok_nonpii judge "faithfulness" query context output expected_output (some []) s r
      (by rw [pyLower_faithfulness]; exact preValidate_faithfulness query context expected_output (some []))
      (by decide) hj

theorem c10_messages_non_none_witness :
    create_test_case (some "q") (some ["c"]) (some "o") none (some exampleMsgs)
      = .conversational [⟨"user", "hi"⟩, ⟨"user", "there"⟩] ∧
    create_test_case (some "q") (some ["c"]) (some "o") none (some [])
      = .conversational [] ∧
    evaluate convJudge "faithfulness" (some "q") (some ["c"]) (some "o") none (some [])
      = .ok (1, reasonOr (some "conversation scored") (defaultReason "faithfulness")) :=
  ⟨(c10_messages_non_none (some "q") (some ["c"]) (some "o") none exampleMsgs convJudge).1,
   (c10_messages_non_none (some "q") (some ["c"]) (some "o") none exampleMsgs convJudge).2.2.1,
   (c10_messages_non_none (some "q") (some ["c"]) (some "o") none exampleMsgs convJudge).2.2.2
     1 (some "conversation scored") rfl⟩

end DeepevalServer
